import Mathlib

/-!
# PisosYTechosBot — level-detection and proximity-alert engine

Shallow embedding of the core functions of `src/main.py` (the single
source file of the repository): `percent_dist`, `atr_from_candles`,
`cluster_levels`, `wick_rejection_score`, `momentum_into_level`, and the
per-level alert decision of `escanear_y_alertar`, together with theorems
checking the natural-language specification against them.

Conventions of the embedding:
* Python floats are modelled as rationals (`ℚ`); the magic constant
  `1e-9` becomes `1/1000000000`.
* Candle dicts `{"time", "open", "high", "low", "close"}` become the
  `Candle` structure (field `«open»` escapes the Lean keyword).
* Pivot dicts `{"idx", "price", "type"}` and level dicts
  `{"price", "type", "touches", "members"}` become `Pivot` and `Level`;
  the `"piso"` / `"techo"` tags stay strings as in the source.
-/

namespace PisosYTechos

/-- A price bar, as produced by `DerivWS.candles`. -/
structure Candle where
  time : ℤ
  «open» : ℚ
  high : ℚ
  low : ℚ
  close : ℚ
deriving DecidableEq, Repr

/-- A pivot dict from `pivot_points`: `{"idx": i, "price": p, "type": t}`
with `t ∈ {"piso", "techo"}`. -/
structure Pivot where
  idx : ℕ
  price : ℚ
  type : String
deriving DecidableEq, Repr

/-- A cluster/level dict from `cluster_levels`. -/
structure Level where
  price : ℚ
  type : String
  touches : ℕ
  members : List Pivot
deriving DecidableEq, Repr

/-- Embeds `percent_dist(a, b) = abs(a - b) / ((a + b) / 2.0) * 100.0`. -/
def percent_dist (a b : ℚ) : ℚ :=
  |a - b| / ((a + b) / 2) * 100

/-- The list `trs` built by the loop in `atr_from_candles`: for each
`i in range(1, len(candles))`,
`tr = max(h - l, abs(h - pc), abs(l - pc))` with `pc` the previous close. -/
def true_ranges (candles : List Candle) : List ℚ :=
  (candles.zip (candles.drop 1)).map fun pr =>
    max (pr.2.high - pr.2.low) (max |pr.2.high - pr.1.close| |pr.2.low - pr.1.close|)

/-- Embeds `atr_from_candles(candles, period)`: `None` when `len(trs) < period`,
else the simple mean `sum(trs[-period:]) / period`. -/
def atr_from_candles (candles : List Candle) (period : ℕ) : Option ℚ :=
  let trs := true_ranges candles
  if trs.length < period then none
  else some (((trs.drop (trs.length - period)).sum) / (period : ℚ))

/-- Embeds `momentum_into_level(candles, idx, look)`: returns `False` when
`idx - look < 0`; otherwise counts, over `i in range(idx - look, idx)`,
bars with `close > open` as `ups` and the rest as `downs`, and returns
`ups >= int(0.7 * look) or downs >= int(0.7 * look)`.
The window of that loop is `(candles.drop (idx - look)).take look`; the
Python threshold `int(0.7 * look)` equals `(7 * look) / 10` in natural
division at the only call-site value `look = 5` (the float product
`0.7 * 5` rounds to exactly `3.5`, truncated to `3`). -/
def momentum_into_level (candles : List Candle) (idx look : ℕ) : Bool :=
  if idx < look then false
  else
    let window := (candles.drop (idx - look)).take look
    let ups := window.countP fun c => decide (c.close > c.«open»)
    let downs := window.countP fun c => !decide (c.close > c.«open»)
    decide (ups ≥ (7 * look) / 10) || decide (downs ≥ (7 * look) / 10)

/-- Embeds `wick_rejection_score(candle, level_type, near_level)`:
`body = abs(c - o)`, `range_ = max(1e-9, h - l)`, upper/lower wick,
early `0.0` when `range_ <= 0` (dead: `range_ ≥ 1e-9`), the
`0.7` / `0.3` weighted score per level type, the `* 0.8` penalty when not
near the level, and the final clamp `max(0.0, min(1.0, score))`. -/
def wick_rejection_score (candle : Candle) (level_type : String) (near : Bool) : ℚ :=
  let h := candle.high
  let l := candle.low
  let o := candle.«open»
  let c := candle.close
  let body := |c - o|
  let range_ := max (1 / 1000000000) (h - l)
  let upper_w := h - max o c
  let lower_w := min o c - l
  if range_ ≤ 0 then 0
  else
    let score :=
      if level_type = "techo" then (upper_w / range_) * (7 / 10) + (1 - body / range_) * (3 / 10)
      else (lower_w / range_) * (7 / 10) + (1 - body / range_) * (3 / 10)
    let score := if near then score else score * (8 / 10)
    max 0 (min 1 score)

/-- The score formula as the specification words it, for comparison:
the denominator is the true bar range `high - low`, a zero-range bar
scores `0`, and the result is clamped to `[0, 1]`. -/
def spec_wick_score (candle : Candle) (level_type : String) : ℚ :=
  let r := candle.high - candle.low
  if r ≤ 0 then 0
  else
    let body := |candle.close - candle.«open»|
    let wick :=
      if level_type = "techo" then candle.high - max candle.«open» candle.close
      else min candle.«open» candle.close - candle.low
    max 0 (min 1 ((7 / 10) * (wick / r) + (3 / 10) * (1 - body / r)))

/-- The per-level firing decision of `escanear_y_alertar`
(lines 321–340): a qualified level alerts iff
`percent_dist(last_price, lv["price"]) <= MAX_DISTANCE_PCT`
(the loop `continue`s when `dist_pct > MAX_DISTANCE_PCT`). It takes no
previous close, no direction, no side-of-level test and no
cooldown/registry state. -/
def alert_fires (last_price level_price max_pct : ℚ) : Bool :=
  decide (percent_dist last_price level_price ≤ max_pct)

/-- The specification's `inside the proximity zone` predicate for a
resistance level: `price ≤ level` and `level - price ≤ tol`. -/
def inside_resistance_zone (price level tol : ℚ) : Bool :=
  decide (price ≤ level) && decide (level - price ≤ tol)

/-- The specification's resistance approach rule, for comparison:
`curr` inside the zone, `prev` not inside the zone, and `curr > prev`. -/
def spec_resistance_fires (curr prev level tol : ℚ) : Bool :=
  inside_resistance_zone curr level tol && !inside_resistance_zone prev level tol &&
    decide (curr > prev)

/-- The driver `run()` invokes `escanear_y_alertar` once per scan pass;
the firing decision for a level is a function of the scan's candle data
only (the program keeps no cooldown registry). With unchanged data, the
alerts emitted over a list of scan times are therefore the scan times at
which the time-independent decision holds. -/
def fired_times (scan_times : List ℚ) (last_price level_price max_pct : ℚ) : List ℚ :=
  scan_times.filter fun _ => alert_fires last_price level_price max_pct

/-- The specification's momentum rule, for comparison: of the `look`
bars immediately preceding the pivot, at least 70 % (`0.7 * look`, not
truncated) close in the direction of the level — up-closes for a
resistance (`techo`), down-closes for a support (`piso`). -/
def spec_momentum (candles : List Candle) (idx look : ℕ) (level_type : String) : Bool :=
  if idx < look then false
  else
    let window := (candles.drop (idx - look)).take look
    let ups := window.countP fun c => decide (c.close > c.«open»)
    let downs := window.countP fun c => !decide (c.close > c.«open»)
    if level_type = "techo" then decide ((ups : ℚ) ≥ 7 / 10 * look)
    else decide ((downs : ℚ) ≥ 7 / 10 * look)

/-- The level built by one iteration of the outer loop in
`cluster_levels` from the group started at seed `p`: dominant type
(`"piso"` on ties, per `types["piso"] >= types["techo"]`), mean price,
`touches = len(group)`, members in grouping order. -/
def mk_cluster (group : List Pivot) : Level :=
  { price := (group.map Pivot.price).sum / (group.length : ℚ)
    type :=
      if (group.countP fun m => decide (m.type = "piso")) ≥
          (group.countP fun m => decide (m.type = "techo")) then "piso" else "techo"
    touches := group.length
    members := group }

/-- The double loop of `cluster_levels` with its `used` index set:
the first unused pivot `p` seeds a group, the inner loop adds every
later unused pivot within `max_pct` of the SEED's price (the source
compares against `p["price"]`, not the running centroid), and the next
seed is the next unused pivot. Marking an index `used` is removing it
from the remaining list, so one outer iteration maps `p :: rest` to the
group `p :: rest.filter near` and the remainder `rest.filter (! near)`.
`fuel` bounds the number of outer iterations; `cluster_levels` passes
the list length, which suffices since the remainder shrinks. -/
def build_clusters (fuel : ℕ) (max_pct : ℚ) (pivots : List Pivot) : List Level :=
  match fuel, pivots with
  | 0, _ => []
  | _, [] => []
  | fuel + 1, p :: rest =>
      let near := rest.filter fun q => decide (percent_dist p.price q.price ≤ max_pct)
      let far := rest.filter fun q => !decide (percent_dist p.price q.price ≤ max_pct)
      mk_cluster (p :: near) :: build_clusters fuel max_pct far

/-- Insertion of `clusters.sort(key=lambda x: abs(x["price"] - last_close))`:
a structural stable insertion sort by a boolean `≤` on the key. -/
def insert_by (le : Level → Level → Bool) (a : Level) : List Level → List Level
  | [] => [a]
  | b :: l => if le a b then a :: b :: l else b :: insert_by le a l

/-- Stable sort modelling Python's ascending `list.sort`. -/
def sort_by (le : Level → Level → Bool) : List Level → List Level
  | [] => []
  | a :: l => insert_by le a (sort_by le l)

/-- Embeds `cluster_levels(pivots, max_pct, last_close)`: the greedy used-set
grouping followed by the sort by distance to the latest close. -/
def cluster_levels (pivots : List Pivot) (max_pct last_close : ℚ) : List Level :=
  sort_by (fun a b => decide (|a.price - last_close| ≤ |b.price - last_close|))
    (build_clusters pivots.length max_pct pivots)

/-- Embeds line 330 of `escanear_y_alertar` —
`sl = lv["price"] - SL_ATR_FACTOR * atr` for a `piso`,
`lv["price"] + SL_ATR_FACTOR * atr` otherwise. -/
def compute_sl (level_type : String) (level_price atr sl_atr_factor : ℚ) : ℚ :=
  if level_type = "piso" then level_price - sl_atr_factor * atr
  else level_price + sl_atr_factor * atr

/-- Embeds line 331 of `escanear_y_alertar` —
`tp = lv["price"] + RR_RATIO * (lv["price"] - sl)` for a `piso`,
`lv["price"] - RR_RATIO * (sl - lv["price"])` otherwise. Both branches
use the level price, not the latest close. -/
def compute_tp (level_type : String) (level_price sl rr : ℚ) : ℚ :=
  if level_type = "piso" then level_price + rr * (level_price - sl)
  else level_price - rr * (sl - level_price)

/-- The specification's take-profit rule, for comparison: from the
latest close, `risk = |price - SL|`, `TP = price ± risk * RR_RATIO` in
the favorable direction (up for a support long, down for a resistance
short). -/
def spec_tp (level_type : String) (price sl rr : ℚ) : ℚ :=
  if level_type = "piso" then price + rr * |price - sl| else price - rr * |price - sl|

/-! ## Helper lemmas -/

/-- The `trs` list of `atr_from_candles` has one entry per consecutive
pair of bars. -/
lemma true_ranges_length (candles : List Candle) :
    (true_ranges candles).length = candles.length - 1 := by
  simp only [true_ranges, List.length_map, List.length_zip, List.length_drop]
  omega

/-- Every window element is counted exactly once, as an up-close or a
down-close. -/
lemma countP_add_countP_not {α : Type} (p : α → Bool) (l : List α) :
    l.countP p + l.countP (fun a => !p a) = l.length := by
  induction l with
  | nil => simp
  | cons a t ih =>
      by_cases h : p a = true <;> simp [List.countP_cons, h] <;> omega

/-! ## C8 — Volatility Estimator availability threshold -/

/-- C8: For every bar series shorter than `period + 1` bars
(`period ≥ 1`, the configuration default being `ATR_PERIOD = 14`),
`atr_from_candles` returns the sentinel `None`; for every series of at
least `period + 1` bars it returns the simple mean of the last `period`
true-range values. -/
theorem C8_atr_unavailable (candles : List Candle) (period : ℕ) (hp : 1 ≤ period) :
    (candles.length < period + 1 → atr_from_candles candles period = none) ∧
    (period + 1 ≤ candles.length →
      atr_from_candles candles period =
        some ((((true_ranges candles).drop ((true_ranges candles).length - period)).sum) /
          (period : ℚ))) := by
  have hlen := true_ranges_length candles
  constructor
  · intro h
    have : (true_ranges candles).length < period := by omega
    simp [atr_from_candles, this]
  · intro h
    have : ¬ (true_ranges candles).length < period := by omega
    simp [atr_from_candles, this]

/-- Witness for C8: the empty series with the default period 14. -/
theorem C8_witness :
    (1 ≤ 14) ∧ atr_from_candles [] 14 = none :=
  ⟨by norm_num, (C8_atr_unavailable [] 14 (by norm_num)).1 (by simp)⟩

/-! ## C9 — the momentum filter is vacuous for fully-windowed pivots -/

/-- C9: For every candle series and every index `idx` with
`5 ≤ idx ≤ length`, `momentum_into_level` with the call-site default
`look = 5` returns `True`: each of the five preceding bars is counted
as an up-close or a down-close, so one of the two counts reaches the
truncated threshold `int(0.7 * 5) = 3`. -/
theorem C9_momentum_always_true (candles : List Candle) (idx : ℕ)
    (h5 : 5 ≤ idx) (hlen : idx ≤ candles.length) :
    momentum_into_level candles idx 5 = true := by
  unfold momentum_into_level
  rw [if_neg (by omega : ¬ idx < 5)]
  have hw : ((candles.drop (idx - 5)).take 5).length = 5 := by
    simp only [List.length_take, List.length_drop]
    omega
  have hsplit := countP_add_countP_not
    (fun c => decide (c.close > c.«open»)) ((candles.drop (idx - 5)).take 5)
  rw [hw] at hsplit
  simp only [Bool.or_eq_true, decide_eq_true_eq]
  omega

/-- Witness for C9: five identical down-closing bars, pivot index 5. -/
theorem C9_witness :
    (5 ≤ 5) ∧
      (5 ≤ ([⟨0, 10, 12, 8, 9⟩, ⟨1, 10, 12, 8, 9⟩, ⟨2, 10, 12, 8, 9⟩,
        ⟨3, 10, 12, 8, 9⟩, ⟨4, 10, 12, 8, 9⟩] : List Candle).length) ∧
      momentum_into_level [⟨0, 10, 12, 8, 9⟩, ⟨1, 10, 12, 8, 9⟩, ⟨2, 10, 12, 8, 9⟩,
        ⟨3, 10, 12, 8, 9⟩, ⟨4, 10, 12, 8, 9⟩] 5 5 = true :=
  ⟨by norm_num, by simp,
    C9_momentum_always_true _ 5 (by norm_num) (by simp)⟩

/-! ## C5 — the momentum check is direction-agnostic with a 60 % threshold -/

/-- C5 counterexample: the five bars preceding the pivot all close
down, yet `momentum_into_level` accepts, while the specification's
momentum rule for a resistance (`techo`) level — at least 70 % of the
five bars closing up — rejects. -/
theorem C5_counterexample :
    momentum_into_level [⟨0, 10, 12, 8, 9⟩, ⟨1, 10, 12, 8, 9⟩, ⟨2, 10, 12, 8, 9⟩,
        ⟨3, 10, 12, 8, 9⟩, ⟨4, 10, 12, 8, 9⟩] 5 5 = true ∧
      spec_momentum [⟨0, 10, 12, 8, 9⟩, ⟨1, 10, 12, 8, 9⟩, ⟨2, 10, 12, 8, 9⟩,
        ⟨3, 10, 12, 8, 9⟩, ⟨4, 10, 12, 8, 9⟩] 5 5 "techo" = false := by
  constructor
  · norm_num [momentum_into_level, List.countP_cons]
  · norm_num [spec_momentum, List.countP_cons]

/-- C5 as amended: for every pivot with `idx ≥ look = 5`,
`momentum_into_level` holds iff at least `int(0.7 * 5) = 3` of the five
preceding bars close up, or at least 3 of them close down — 60 %, not
70 %, in either direction, independent of the level kind (the function
does not take the level kind at all). -/
theorem C5_momentum_amended (candles : List Candle) (idx : ℕ) (h5 : 5 ≤ idx) :
    momentum_into_level candles idx 5 =
      (decide (3 ≤ ((candles.drop (idx - 5)).take 5).countP fun c => decide (c.close > c.«open»)) ||
        decide (3 ≤ ((candles.drop (idx - 5)).take 5).countP fun c => !decide (c.close > c.«open»))) := by
  unfold momentum_into_level
  rw [if_neg (by omega : ¬ idx < 5)]

/-- Witness for C5's amended theorem at the counterexample's input. -/
theorem C5_witness :
    (5 ≤ 5) ∧
      momentum_into_level [⟨0, 10, 12, 8, 9⟩, ⟨1, 10, 12, 8, 9⟩, ⟨2, 10, 12, 8, 9⟩,
          ⟨3, 10, 12, 8, 9⟩, ⟨4, 10, 12, 8, 9⟩] 5 5 =
        (decide (3 ≤ ((([⟨0, 10, 12, 8, 9⟩, ⟨1, 10, 12, 8, 9⟩, ⟨2, 10, 12, 8, 9⟩,
            ⟨3, 10, 12, 8, 9⟩, ⟨4, 10, 12, 8, 9⟩] : List Candle).drop (5 - 5)).take 5).countP
            fun c => decide (c.close > c.«open»)) ||
          decide (3 ≤ ((([⟨0, 10, 12, 8, 9⟩, ⟨1, 10, 12, 8, 9⟩, ⟨2, 10, 12, 8, 9⟩,
            ⟨3, 10, 12, 8, 9⟩, ⟨4, 10, 12, 8, 9⟩] : List Candle).drop (5 - 5)).take 5).countP
            fun c => !decide (c.close > c.«open»))) :=
  ⟨by norm_num, C5_momentum_amended _ 5 (by norm_num)⟩

/-! ## C6 — wick-rejection score and the unreachable zero-range guard -/

/-- C6 counterexample: a zero-range bar (`high = low = open = close`)
scores `0.3`, not `0`: the denominator is floored at `1e-9`, so the
body-smallness term contributes `0.3` and the explicit zero-range guard
`range_ <= 0` is unreachable. The specification's formula scores it `0`. -/
theorem C6_counterexample :
    wick_rejection_score ⟨0, 100, 100, 100, 100⟩ "techo" true = 3 / 10 ∧
      spec_wick_score ⟨0, 100, 100, 100, 100⟩ "techo" = 0 ∧
      (3 / 10 : ℚ) ≠ 0 := by
  refine ⟨?_, ?_, by norm_num⟩
  · norm_num [wick_rejection_score]
  · norm_num [spec_wick_score]

/-- C6 as amended: for every bar whose range is at least the flooring
constant `1e-9` and every level kind, the score (with the bar judged
near the level) equals the specification's clamped formula
`0.7 * wick/range + 0.3 * (1 - body/range)`; only bars with range below
`1e-9` deviate, a degenerate bar with `open = close` scoring `0.3`. -/
theorem C6_wick_score_amended (candle : Candle) (level_type : String)
    (h : 1 / 1000000000 ≤ candle.high - candle.low) :
    wick_rejection_score candle level_type true = spec_wick_score candle level_type := by
  have hmax : max (1 / 1000000000 : ℚ) (candle.high - candle.low) = candle.high - candle.low :=
    max_eq_right h
  have hpos : ¬ (candle.high - candle.low ≤ 0) :=
    not_le.mpr (lt_of_lt_of_le (by norm_num) h)
  simp only [wick_rejection_score, spec_wick_score, hmax, hpos, if_false, ite_false, ite_true]
  by_cases ht : level_type = "techo" <;> simp only [ht, if_true, if_false, ite_true, ite_false] <;>
    ring_nf

/-- Witness for C6's amended theorem: an ordinary bar of range 4. -/
theorem C6_witness :
    ((1 : ℚ) / 1000000000 ≤ (⟨0, 10, 12, 8, 9⟩ : Candle).high - (⟨0, 10, 12, 8, 9⟩ : Candle).low) ∧
      wick_rejection_score ⟨0, 10, 12, 8, 9⟩ "techo" true = spec_wick_score ⟨0, 10, 12, 8, 9⟩ "techo" :=
  ⟨by norm_num, C6_wick_score_amended ⟨0, 10, 12, 8, 9⟩ "techo" (by norm_num)⟩

/-! ## C4 — stop-loss matches the claim, take-profit uses the level price -/

/-- C4 counterexample: support level at 100, `ATR = 1`,
`SL_ATR_FACTOR = 1`, `RR_RATIO = 10`, latest close 105: the code computes
`TP = level + RR * (level - SL) = 110`, while the claim's rule
`TP = price + RR * |price - SL|` from the latest close gives 165. -/
theorem C4_counterexample :
    compute_tp "piso" 100 (compute_sl "piso" 100 1 1) 10 = 110 ∧
      spec_tp "piso" 105 (compute_sl "piso" 100 1 1) 10 = 165 ∧
      ((110 : ℚ) ≠ 165) := by
  refine ⟨?_, ?_, by norm_num⟩
  · norm_num [compute_tp, compute_sl]
  · norm_num [spec_tp, compute_sl, abs_of_pos]

/-- C4 as amended: the stop-loss is `SL_ATR_FACTOR * ATR` beyond the
level, below a support and above a resistance, as the claim states; the
take-profit, however, is computed from the level price, not the latest
close: `TP = level ± RR_RATIO * (SL_ATR_FACTOR * ATR)` in the favorable
direction. -/
theorem C4_sl_tp_amended (level_type : String) (level_price atr f rr : ℚ) :
    compute_sl level_type level_price atr f =
      (if level_type = "piso" then level_price - f * atr else level_price + f * atr) ∧
    compute_tp level_type level_price (compute_sl level_type level_price atr f) rr =
      (if level_type = "piso" then level_price + rr * (f * atr)
        else level_price - rr * (f * atr)) := by
  unfold compute_sl compute_tp
  by_cases ht : level_type = "piso" <;> simp only [ht, if_true, if_false] <;>
    constructor <;> ring_nf

/-! ## C1 — the alert decision has no transition or direction test -/

/-- C1: the code's per-level alert decision fires on a price that has
been sitting inside the proximity zone with no upward movement: with a
resistance level at 100 and latest close 99.99 (previous close also
99.99), `alert_fires` is `True` — it tests only
`percent_dist(close, level) ≤ MAX_DISTANCE_PCT` — while the
specification's transition rule (`curr` inside the zone, `prev` outside,
`curr > prev`) is `False` for every tolerance, since `curr = prev`.
This contradicts the code's own comment
`acercándose = precio aún no cruzó el nivel y distancia cae`. -/
theorem C1_no_transition_test :
    alert_fires (9999 / 100) 100 (1 / 5) = true ∧
      ∀ tol : ℚ, spec_resistance_fires (9999 / 100) (9999 / 100) 100 tol = false := by
  constructor
  · norm_num [alert_fires, percent_dist, abs_of_pos]
  · intro tol
    simp [spec_resistance_fires]

/-! ## C2 — no cooldown registry exists -/

/-- C2 counterexample: two scans 60 seconds apart with unchanged
qualifying data both fire the same alert key (level 100, close 99.99,
`MAX_DISTANCE_PCT = 0.20`), though 60 s is inside the claimed
`cooldown_seconds` window (default 120–180 s): the program consults no
cooldown registry. -/
theorem C2_counterexample :
    fired_times [0, 60] (9999 / 100) 100 (1 / 5) = [0, 60] ∧ ((60 : ℚ) - 0 < 120) := by
  constructor
  · norm_num [fired_times, alert_fires, percent_dist, abs_of_pos, List.filter]
  · norm_num

/-- C2 as amended: the code keeps no cooldown state at all: whenever
the proximity condition holds for unchanged scan data, the alert fires
at every single scan time; the only rate limiting is the fixed
120-second sleep between scan passes in `run()`. -/
theorem C2_fires_every_scan (scan_times : List ℚ) (last_price level_price max_pct : ℚ)
    (h : alert_fires last_price level_price max_pct = true) :
    fired_times scan_times last_price level_price max_pct = scan_times := by
  simp [fired_times, h]

/-- Witness for C2's amended theorem: three scans inside any cooldown
window all fire. -/
theorem C2_witness :
    alert_fires (9999 / 100) 100 (1 / 5) = true ∧
      fired_times [0, 30, 60] (9999 / 100) 100 (1 / 5) = [0, 30, 60] :=
  ⟨by norm_num [alert_fires, percent_dist, abs_of_pos],
    C2_fires_every_scan [0, 30, 60] (9999 / 100) 100 (1 / 5)
      (by norm_num [alert_fires, percent_dist, abs_of_pos])⟩

/-! ## Clustering lemmas -/

/-- Inserting into a sorted prefix is a permutation. -/
lemma insert_by_perm (le : Level → Level → Bool) (a : Level) (l : List Level) :
    (insert_by le a l).Perm (a :: l) := by
  induction l with
  | nil => simp [insert_by]
  | cons b t ih =>
      simp only [insert_by]
      by_cases h : le a b = true
      · simp [h]
      · simp only [h, if_false, ite_false]
        exact (ih.cons b).trans (List.Perm.swap a b t)

/-- The final `clusters.sort(...)` of `cluster_levels` only permutes the
clusters. -/
lemma sort_by_perm (le : Level → Level → Bool) (l : List Level) :
    (sort_by le l).Perm l := by
  induction l with
  | nil => simp [sort_by]
  | cons a t ih => exact (insert_by_perm le a (sort_by le t)).trans (ih.cons a)

/-- Membership is preserved through the final sort. -/
lemma mem_sort_by {le : Level → Level → Bool} {l : List Level} {lv : Level}
    (h : lv ∈ sort_by le l) : lv ∈ l :=
  (sort_by_perm le l).mem_iff.mp h

/-- The members of the clusters built by the greedy used-set pass are,
as a multiset, exactly the input pivots. -/
lemma build_clusters_flatten_perm (max_pct : ℚ) :
    ∀ (fuel : ℕ) (pivots : List Pivot), pivots.length ≤ fuel →
      (((build_clusters fuel max_pct pivots).map Level.members).flatten).Perm pivots := by
  intro fuel
  induction fuel with
  | zero =>
      intro pivots h
      have hnil : pivots = [] := List.length_eq_zero.mp (Nat.le_zero.mp h)
      subst hnil
      simp [build_clusters]
  | succ n ih =>
      intro pivots h
      cases pivots with
      | nil => simp [build_clusters]
      | cons p rest =>
          simp only [build_clusters, List.map_cons, List.flatten_cons, mk_cluster,
            List.cons_append]
          refine List.Perm.cons p ?_
          have hfar : (rest.filter fun q =>
              !decide (percent_dist p.price q.price ≤ max_pct)).length ≤ n := by
            have hle := List.length_filter_le
              (fun q => !decide (percent_dist p.price q.price ≤ max_pct)) rest
            simp only [List.length_cons] at h
            omega
          have h1 := List.Perm.append_left
            (rest.filter fun q => decide (percent_dist p.price q.price ≤ max_pct))
            (ih _ hfar)
          have h2 := List.filter_append_perm
            (fun q => decide (percent_dist p.price q.price ≤ max_pct)) rest
          exact h1.trans h2

/-- Every cluster emitted by the greedy pass carries the dominant member
type (ties going to `"piso"`) and a touch count equal to its member
count. -/
lemma mem_build_clusters_fields {lv : Level} (max_pct : ℚ) :
    ∀ (fuel : ℕ) (pivots : List Pivot), lv ∈ build_clusters fuel max_pct pivots →
      lv.type = (if (lv.members.countP fun m => decide (m.type = "piso")) ≥
          (lv.members.countP fun m => decide (m.type = "techo")) then "piso" else "techo") ∧
      lv.touches = lv.members.length := by
  intro fuel
  induction fuel with
  | zero =>
      intro pivots h
      simp [build_clusters] at h
  | succ n ih =>
      intro pivots h
      cases pivots with
      | nil => simp [build_clusters] at h
      | cons p rest =>
          simp only [build_clusters, List.mem_cons] at h
          rcases h with h | h
          · subst h
            exact ⟨rfl, rfl⟩
          · exact ih _ h

/-! ## C3 — clusters can mix support and resistance pivots -/

/-- C3 counterexample: a `techo` pivot and a `piso` pivot at the same
price are merged into one cluster: `cluster_levels` groups by price
proximity only and never partitions by kind. -/
theorem C3_counterexample :
    (cluster_levels [⟨2, 100, "techo"⟩, ⟨7, 100, "piso"⟩] (1 / 5) 100).map
      (fun lv => lv.members.map Pivot.type) = [["techo", "piso"]] := by
  norm_num [cluster_levels, build_clusters, mk_cluster, percent_dist, sort_by, insert_by]

/-- C3 as amended: pivots are merged by price proximity regardless of
kind; each output level is labelled with the dominant kind among its
members (`"piso"` winning ties, per `types["piso"] >= types["techo"]`),
and its touch count is its member count — a level's members can
therefore mix both kinds. -/
theorem C3_cluster_amended (pivots : List Pivot) (max_pct last_close : ℚ) (lv : Level)
    (h : lv ∈ cluster_levels pivots max_pct last_close) :
    lv.type = (if (lv.members.countP fun m => decide (m.type = "piso")) ≥
        (lv.members.countP fun m => decide (m.type = "techo")) then "piso" else "techo") ∧
    lv.touches = lv.members.length :=
  mem_build_clusters_fields max_pct pivots.length pivots (mem_sort_by h)

/-- Witness for C3's amended theorem at the counterexample's input. -/
theorem C3_witness :
    ((⟨100, "piso", 2, [⟨2, 100, "techo"⟩, ⟨7, 100, "piso"⟩]⟩ : Level) ∈
        cluster_levels [⟨2, 100, "techo"⟩, ⟨7, 100, "piso"⟩] (1 / 5) 100) ∧
      ((⟨100, "piso", 2, [⟨2, 100, "techo"⟩, ⟨7, 100, "piso"⟩]⟩ : Level).type =
        (if ((⟨100, "piso", 2, [⟨2, 100, "techo"⟩, ⟨7, 100, "piso"⟩]⟩ : Level).members.countP
              fun m => decide (m.type = "piso")) ≥
            ((⟨100, "piso", 2, [⟨2, 100, "techo"⟩, ⟨7, 100, "piso"⟩]⟩ : Level).members.countP
              fun m => decide (m.type = "techo")) then "piso" else "techo") ∧
        (⟨100, "piso", 2, [⟨2, 100, "techo"⟩, ⟨7, 100, "piso"⟩]⟩ : Level).touches =
          (⟨100, "piso", 2, [⟨2, 100, "techo"⟩, ⟨7, 100, "piso"⟩]⟩ : Level).members.length) :=
  ⟨by
    norm_num [cluster_levels, build_clusters, mk_cluster, percent_dist, sort_by, insert_by,
      List.countP_cons, List.countP_nil]
    decide,
    C3_cluster_amended [⟨2, 100, "techo"⟩, ⟨7, 100, "piso"⟩] (1 / 5) 100 _
      (by
        norm_num [cluster_levels, build_clusters, mk_cluster, percent_dist, sort_by, insert_by,
          List.countP_cons, List.countP_nil]
        decide)⟩

/-! ## C10 — the clusterer partitions the input pivots -/

/-- C10: `cluster_levels` assigns each input pivot to exactly one
output level: the concatenation of the output member lists is a
permutation of the input pivot list (so the member lists are pairwise
disjoint as occurrences and their union is the input), and the touch
counts over all output levels add up to the number of input pivots. -/
theorem C10_cluster_partition (pivots : List Pivot) (max_pct last_close : ℚ) :
    (((cluster_levels pivots max_pct last_close).map Level.members).flatten).Perm pivots ∧
    ((cluster_levels pivots max_pct last_close).map Level.touches).sum = pivots.length := by
  have hsort := sort_by_perm
    (fun a b => decide (|a.price - last_close| ≤ |b.price - last_close|))
    (build_clusters pivots.length max_pct pivots)
  have hperm : (((cluster_levels pivots max_pct last_close).map Level.members).flatten).Perm
      pivots :=
    ((hsort.map Level.members).flatten).trans
      (build_clusters_flatten_perm max_pct pivots.length pivots le_rfl)
  refine ⟨hperm, ?_⟩
  have hmap : (cluster_levels pivots max_pct last_close).map Level.touches =
      (cluster_levels pivots max_pct last_close).map (fun lv => lv.members.length) :=
    List.map_congr_left fun lv hlv =>
      (mem_build_clusters_fields max_pct pivots.length pivots (mem_sort_by hlv)).2
  rw [hmap, ← hperm.length_eq, List.length_flatten, List.map_map]
  rfl

/-! ## C7 — the clusterer is not idempotent -/

/-- C7 counterexample: three `techo` pivots at 100, 100.3 and 100.6
with tolerance 0.5 %: the greedy pass compares candidates to the group's
seed price (100), so 100.6 is left out and two levels with centroids
100.15 and 100.6 are emitted — yet those two same-kind output levels lie
within the tolerance of each other
(`percent_dist(100.15, 100.6) ≈ 0.448 ≤ 0.5`). -/
theorem C7_counterexample :
    ((cluster_levels [⟨0, 100, "techo"⟩, ⟨1, 1003 / 10, "techo"⟩, ⟨2, 503 / 5, "techo"⟩]
        (1 / 2) 0).map (fun lv => (lv.price, lv.type)) =
      [(2003 / 20, "techo"), (503 / 5, "techo")]) ∧
    percent_dist (2003 / 20) (503 / 5) ≤ 1 / 2 := by
  constructor
  · norm_num [cluster_levels, build_clusters, mk_cluster, percent_dist, sort_by, insert_by,
      List.countP_cons, List.countP_nil, abs_of_pos, abs_of_nonneg, abs_of_neg, abs_of_nonpos]
    decide
  · rw [percent_dist, abs_of_nonpos (by norm_num)]
    norm_num

/-- C7 as amended: the clusterer is not idempotent: on the
counterexample's input it emits two levels, and re-clustering their two
centroids (as singleton `techo` pivots) with the same tolerance merges
them into a single level. -/
theorem C7_not_idempotent :
    ((cluster_levels [⟨0, 100, "techo"⟩, ⟨1, 1003 / 10, "techo"⟩, ⟨2, 503 / 5, "techo"⟩]
        (1 / 2) 0).length = 2) ∧
    ((cluster_levels [⟨0, 2003 / 20, "techo"⟩, ⟨1, 503 / 5, "techo"⟩] (1 / 2) 0).length = 1) := by
  constructor
  · norm_num [cluster_levels, build_clusters, mk_cluster, percent_dist, sort_by, insert_by,
      List.countP_cons, List.countP_nil, abs_of_pos, abs_of_nonneg, abs_of_neg, abs_of_nonpos]
  · norm_num [cluster_levels, build_clusters, mk_cluster, percent_dist, sort_by, insert_by,
      List.countP_cons, List.countP_nil, abs_of_pos, abs_of_nonneg, abs_of_neg, abs_of_nonpos]

end PisosYTechos
